import Mathlib

/-!
Verification of the deterministic ICAO VFR speech pipeline
(`backend/normalizer.py`, `backend/parsers.py`, `backend/validator.py`,
`backend/state_machine.py`, `backend/atc_response.py`,
`backend/stt_handler.py`).

The Python modules are shallowly embedded below: strings stay strings,
Python floats become rationals, dictionaries become association lists read
through `List.lookup`, and each function keeps the structure and the name
of its source counterpart.
-/

namespace ATC

set_option maxRecDepth 100000

/-- Mirror of `normalizer.Token`: one rewritten token of the utterance. -/
structure Token where
  raw : String
  normalized : String
  kind : String
  confidence : ℚ
deriving DecidableEq, Repr

/-- Mirror of `normalizer.NormalizationResult`. -/
structure NormalizationResult where
  raw_text : String
  normalized_text : String
  tokens : List Token
  confidence_hints : List String
deriving DecidableEq, Repr

/-- Mirror of `normalizer.NATO_WORDS` (insertion order preserved). -/
def NATO_WORDS : List (String × String) :=
  [("alpha", "A"), ("bravo", "B"), ("charlie", "C"), ("delta", "D"),
   ("echo", "E"), ("foxtrot", "F"), ("golf", "G"), ("hotel", "H"),
   ("india", "I"), ("juliet", "J"), ("kilo", "K"), ("lima", "L"),
   ("mike", "M"), ("november", "N"), ("oscar", "O"), ("papa", "P"),
   ("quebec", "Q"), ("romeo", "R"), ("sierra", "S"), ("tango", "T"),
   ("uniform", "U"), ("victor", "V"), ("whiskey", "W"), ("xray", "X"),
   ("yankee", "Y"), ("zulu", "Z")]

/-- Mirror of `normalizer.NUMBER_WORDS`. -/
def NUMBER_WORDS : List (String × String) :=
  [("zero", "0"), ("one", "1"), ("two", "2"), ("three", "3"), ("tree", "3"),
   ("four", "4"), ("for", "4"), ("five", "5"), ("fife", "5"), ("six", "6"),
   ("seven", "7"), ("eight", "8"), ("nine", "9"), ("niner", "9")]

/-- Mirror of `normalizer.CONTEXT_NUMBERS`. -/
def CONTEXT_NUMBERS : List (String × String) :=
  [("to", "two"), ("too", "two"), ("for", "four")]

/-- A character matched by the token pattern (a lowercase letter or a digit). -/
def isTokenChar (c : Char) : Bool :=
  (Char.ofNat 97 ≤ c && c ≤ Char.ofNat 122) || c.isDigit

/-- Inner loop of `normalizer._tokenize`: split an already lowercased
character list into the maximal runs of `[a-z0-9]` characters. The first
argument is recursion fuel; every recursive call shortens the list, so fuel
equal to the list length (as passed by `tokenize`) is never exhausted. -/
def tokenizeChars : Nat → List Char → List String
  | 0, _ => []
  | _ + 1, [] => []
  | fuel + 1, c :: cs =>
    if isTokenChar c then
      String.mk (c :: cs.takeWhile isTokenChar) ::
        tokenizeChars fuel (cs.dropWhile isTokenChar)
    else
      tokenizeChars fuel cs

/-- Mirror of `normalizer._tokenize`: lowercase the input (the inputs of
interest are ASCII) and extract the maximal `[a-z0-9]+` runs in order. -/
def tokenize (text : String) : List String :=
  tokenizeChars (text.data.map Char.toLower).length (text.data.map Char.toLower)

/-- Python `str.isdigit` for the token alphabet: nonempty and all digits. -/
def isDigits (s : String) : Bool :=
  !s.data.isEmpty && s.data.all Char.isDigit

/-- Mirror of `normalizer._is_number_token`. -/
def isNumberToken (t : String) : Bool :=
  isDigits t || (List.lookup t NUMBER_WORDS).isSome

/-- Python `str.lower` on the ASCII strings arising here. -/
def lowerStr (s : String) : String := String.mk (s.data.map Char.toLower)

/-- Python `str.upper` on the ASCII strings arising here. -/
def upperStr (s : String) : String := String.mk (s.data.map Char.toUpper)

/-- Python `str.strip` on the ASCII strings arising here. -/
def stripStr (s : String) : String :=
  String.mk (((s.data.dropWhile Char.isWhitespace).reverse.dropWhile
    Char.isWhitespace).reverse)

/-- Python `str.startswith`. -/
def strStartsWith (s p : String) : Bool := s.data.take p.data.length == p.data

/-- Python `str.endswith`. -/
def strEndsWith (s p : String) : Bool :=
  s.data.reverse.take p.data.length == p.data.reverse

/-- Python `int(text)` on a string already known to consist of digits. -/
def digitsToNat (s : String) : Nat :=
  s.data.foldl (fun n c => 10 * n + (c.toNat - 48)) 0

/-- One pass of Python `str.replace` over characters, for a nonempty
pattern (the only use here replaces `kt`). The first argument is recursion
fuel; every recursive call shortens the list, so fuel equal to the list
length (as passed by `strReplace`) is never exhausted. -/
def replaceChars : Nat → List Char → List Char → List Char → List Char
  | 0, _, _, _ => []
  | _ + 1, [], _, _ => []
  | fuel + 1, c :: cs, pat, repl =>
    if (c :: cs).take pat.length = pat then
      repl ++ replaceChars fuel ((c :: cs).drop pat.length) pat repl
    else c :: replaceChars fuel cs pat repl

/-- Python `str.replace` for a nonempty pattern. -/
def strReplace (s pat repl : String) : String :=
  String.mk (replaceChars s.data.length s.data pat.data repl.data)

/-- Length of the common prefix of two character lists: the size of the
matching run starting at a fixed pair of positions. -/
def commonPrefixLen : List Char → List Char → Nat
  | a :: as, b :: bs => if a = b then commonPrefixLen as bs + 1 else 0
  | _, _ => 0

/-- Model of `difflib.SequenceMatcher.find_longest_match` over the full
ranges: among all matching blocks of maximal size, the one starting
earliest in `a` and then earliest in `b` (the documented guarantee of
`difflib`; no junk heuristic applies to the short strings involved).
Returns `(i, j, size)`. -/
def findLongestBlock (a b : List Char) : Nat × Nat × Nat :=
  (List.range (a.length + 1)).foldl (fun best i =>
    (List.range (b.length + 1)).foldl (fun cur j =>
      let k := commonPrefixLen (a.drop i) (b.drop j)
      if k > cur.2.2 then (i, j, k) else cur) best) (0, 0, 0)

/-- Model of the total size of `difflib.SequenceMatcher.get_matching_blocks`:
the size of the longest block plus, recursively, the totals of the parts of
both lists to its left and to its right. The first argument is recursion
fuel; each recursive call strictly shrinks `a.length + b.length`, so fuel
equal to that sum (as passed by the wrappers below) is never exhausted. -/
def matchTotalF : Nat → List Char → List Char → Nat
  | 0, _, _ => 0
  | fuel + 1, a, b =>
    if (findLongestBlock a b).2.2 = 0 then 0
    else
      matchTotalF fuel (a.take (findLongestBlock a b).1)
          (b.take (findLongestBlock a b).2.1) +
        (findLongestBlock a b).2.2 +
        matchTotalF fuel (a.drop ((findLongestBlock a b).1 + (findLongestBlock a b).2.2))
          (b.drop ((findLongestBlock a b).2.1 + (findLongestBlock a b).2.2))

/-- The matching total of `difflib.SequenceMatcher(a, b)`. -/
def matchTotal (a b : List Char) : Nat :=
  matchTotalF (a.length + b.length) a b

/-- Model of `difflib.SequenceMatcher.ratio()` on `(a, b)`:
`2 * M / (len(a) + len(b))`, and `1` when both are empty. -/
def similarityScore (a b : List Char) : ℚ :=
  if a.length + b.length = 0 then 1
  else (2 * (matchTotal a b : ℚ)) / ((a.length : ℚ) + (b.length : ℚ))

/-- The cutoff test `ratio >= 0.8` of `difflib.get_close_matches`, stated
by cross multiplication over the integers: `2M / (la + lb) ≥ 4/5` holds
exactly when `5 * 2M ≥ 4 * (la + lb)` (for `la + lb = 0` the ratio is `1`
and both sides of the cross multiplication read `0 ≥ 0`, so the two
formulations agree there as well). -/
def ratioPasses (a b : List Char) : Bool :=
  decide (5 * (2 * matchTotal a b) ≥ 4 * (a.length + b.length))

/-- Strictly-greater test on `((numerator, denominator), word)` candidates
under the `(ratio, word)` tuple order that `heapq.nlargest` uses: ratios
are compared by cross multiplication (the denominators, sums of two word
lengths, are positive for every candidate arising here), and equal ratios
are broken towards the larger word. -/
def betterPair (p q : (Nat × Nat) × String) : Bool :=
  decide (p.1.1 * q.1.2 > q.1.1 * p.1.2) ||
    (decide (p.1.1 * q.1.2 = q.1.1 * p.1.2) && decide (q.2 < p.2))

/-- Model of `heapq.nlargest(1, ...)` over the candidate list. -/
def bestCandidate (l : List ((Nat × Nat) × String)) :
    Option ((Nat × Nat) × String) :=
  l.foldl (fun acc p =>
    match acc with
    | none => some p
    | some q => if betterPair p q then some p else some q) none

/-- A single-quote character as a string (used when rebuilding the
diagnostic hint texts of the source). -/
def sq : String := String.singleton (Char.ofNat 39)

/-- Round a rational to the nearest integer, ties to even — the behaviour
of Python `round` on the score values arising here. -/
def roundHalfEven (q : ℚ) : ℤ :=
  let f := ⌊q⌋
  if q - f < 1 / 2 then f
  else if 1 / 2 < q - f then f + 1
  else if f % 2 = 0 then f else f + 1

/-- Model of the `f"{ratio:.2f}"` formatting inside the fuzzy-match hint. -/
def fmt2 (q : ℚ) : String :=
  let n := roundHalfEven (100 * q)
  let frac := n % 100
  toString (n / 100) ++ "." ++ (if frac < 10 then "0" else "") ++ toString frac

/-- Model of `normalizer._fuzzy_match` with the fixed cutoff `0.8`:
`difflib.get_close_matches` keeps the dictionary keys whose ratio against
the token reaches the cutoff (its quick-ratio tests are upper bounds of the
ratio, so they never change the outcome), picks the largest `(ratio, word)`
pair, and the caller then recomputes the ratio with the arguments swapped. -/
def fuzzyMatch (token : String) (choices : List String) : Option String × ℚ :=
  let passing := (choices.filter
      (fun w => ratioPasses w.data token.data)).map
      (fun w => ((2 * matchTotal w.data token.data,
                  w.data.length + token.data.length), w))
  match bestCandidate passing with
  | none => (none, 0)
  | some p => (some p.2, similarityScore token.data p.2.data)

/-- Digits contributed by one consumed token of the flight-level rule:
a digit token contributes its own characters, a number word its digit. -/
def tokDigits (u : String) : String :=
  if isDigits u then u else (List.lookup u NUMBER_WORDS).getD ""

/-- The digit string collected by the flight-level rule from the tokens
after `flight level`: the maximal prefix of number-ish tokens. -/
def flDigits (l : List String) : String :=
  String.join ((l.takeWhile isNumberToken).map tokDigits)

/-- Rules 3 to 7 of the rewrite table (`normalize_icao`, per-token part):
exact number word, digit run, exact NATO word, fuzzy NATO word, default
passthrough. Returns the emitted token and the recorded hints. -/
def rewriteBase (t : String) : Token × List String :=
  match List.lookup t NUMBER_WORDS with
  | some d => (⟨t, d, "number", 1⟩, [])
  | none =>
    if isDigits t then (⟨t, t, "digits", 1⟩, [])
    else
      match List.lookup t NATO_WORDS with
      | some letter => (⟨t, letter, "nato", 1⟩, [])
      | none =>
        match fuzzyMatch t (NATO_WORDS.map Prod.fst) with
        | (some m, r) =>
          (⟨t, (List.lookup m NATO_WORDS).getD "", "nato", r⟩,
           ["fuzzy NATO match " ++ sq ++ t ++ sq ++ " -> " ++ sq ++ m ++ sq ++
            " (" ++ fmt2 r ++ ")"])
        | (none, _) => (⟨t, t, "word", 1⟩, [])

/-- One non-flight-level step of `normalize_icao`: the contextual
`to`/`too`/`for` rule (rule 2) when a neighbouring token is number-ish,
otherwise `rewriteBase`. `prev` is the original token preceding the cursor
and `next` the one following it. -/
def rewriteOne (prev : Option String) (t : String) (next : Option String) :
    Token × List String :=
  match List.lookup t CONTEXT_NUMBERS with
  | some w =>
    if (match prev with | some p => isNumberToken p | none => false) ||
       (match next with | some n => isNumberToken n | none => false) then
      let d := (List.lookup w NUMBER_WORDS).getD ""
      (⟨t, d, "number", 3 / 4⟩,
       ["context-normalized " ++ sq ++ t ++ sq ++ " -> " ++ sq ++ d ++ sq])
    else rewriteBase t
  | none => rewriteBase t

/-- The cursor loop of `normalize_icao`: rule 1 (flight level) consumes
`flight level` plus the following number-ish run when that run yields at
least one digit; every other rule consumes one token via `rewriteOne`.
Returns the emitted tokens and the confidence hints in emission order.
The first argument is recursion fuel; every recursive call shortens the
token list, so fuel equal to the list length (as passed by
`normalize_icao`) is never exhausted. -/
def rewriteLoop : Nat → Option String → List String → List Token × List String
  | 0, _, _ => ([], [])
  | _ + 1, _, [] => ([], [])
  | fuel + 1, prev, t :: rest =>
    if t = "flight" ∧ rest.head? = some "level" ∧ flDigits rest.tail ≠ "" then
      (⟨"flight level", "FL" ++ flDigits rest.tail, "flight_level", 1⟩ ::
          (rewriteLoop fuel (some ((rest.tail.takeWhile isNumberToken).getLastD "level"))
            (rest.tail.dropWhile isNumberToken)).1,
        (rewriteLoop fuel (some ((rest.tail.takeWhile isNumberToken).getLastD "level"))
          (rest.tail.dropWhile isNumberToken)).2)
    else
      ((rewriteOne prev t rest.head?).1 :: (rewriteLoop fuel (some t) rest).1,
       (rewriteOne prev t rest.head?).2 ++ (rewriteLoop fuel (some t) rest).2)

/-- Python `str.isalpha` restricted to the ASCII strings arising here. -/
def isAlphaStr (s : String) : Bool :=
  !s.data.isEmpty && s.data.all Char.isAlpha

/-- Python `str.isupper` restricted to the ASCII strings arising here. -/
def isUpperStr (s : String) : Bool :=
  !s.data.isEmpty && s.data.all Char.isUpper

/-- Mirror of `normalizer._join_tokens`: build the output word list, gluing
a NATO token onto the previous output word when that word is alphabetic and
uppercase. -/
def joinOutput (tokens : List Token) : List String :=
  tokens.foldl (fun output token =>
    if token.kind = "nato" ∧ output ≠ [] ∧
        isAlphaStr (output.getLastD "") ∧ isUpperStr (output.getLastD "") then
      output.dropLast ++ [output.getLastD "" ++ token.normalized]
    else output ++ [token.normalized]) []

/-- Mirror of the `" ".join(output)` step of `normalizer._join_tokens`. -/
def joinTokens (tokens : List Token) : String :=
  String.intercalate " " (joinOutput tokens)

/-- Mirror of `normalizer.normalize_icao`. -/
def normalize_icao (raw_text : String) : NormalizationResult :=
  ⟨raw_text,
   joinTokens (rewriteLoop (tokenize raw_text).length none (tokenize raw_text)).1,
   (rewriteLoop (tokenize raw_text).length none (tokenize raw_text)).1,
   (rewriteLoop (tokenize raw_text).length none (tokenize raw_text)).2⟩

/-- Mirror of `parsers.ParsedSlot`. -/
structure ParsedSlot where
  name : String
  value : String
  confidence : ℚ
  raw_tokens : List String
deriving DecidableEq, Repr

/-- An uppercase ASCII letter, the `[A-Z]` class of `parsers.CALLSIGN_RE`. -/
def isUpperLetter (c : Char) : Bool := c.isUpper

/-- Decision procedure for `parsers.CALLSIGN_RE`,
`^[A-Z]{1,2}-?[A-Z0-9]{2,5}$`: a 1- or 2-letter uppercase prefix, an
optional hyphen, and a 2-to-5 character uppercase-alphanumeric body. -/
def callsignMatch (s : String) : Bool :=
  let check : Nat → Bool := fun p =>
    let cs := s.data
    decide (p ≤ cs.length) && (cs.take p).all isUpperLetter &&
      (let restA := cs.drop p
       let body := if restA.head? = some (Char.ofNat 45) then restA.tail else restA
       decide (2 ≤ body.length) && decide (body.length ≤ 5) &&
         body.all (fun c => isUpperLetter c || c.isDigit))
  check 1 || check 2

/-- Mirror of `parsers.RUNWAY_SUFFIX`. -/
def RUNWAY_SUFFIX : List (String × String) :=
  [("l", "L"), ("left", "L"), ("r", "R"), ("right", "R"),
   ("c", "C"), ("center", "C"), ("centre", "C")]

/-- First loop of `parsers.parse_callsign`: a single token matching the
callsign pattern, or two adjacent tokens whose hyphen-join matches it. -/
def callsignScan : List Token → Option ParsedSlot
  | [] => none
  | t :: rest =>
    if callsignMatch t.normalized then
      some ⟨"callsign", t.normalized, t.confidence, [t.raw]⟩
    else
      match rest.head? with
      | some nt =>
        if callsignMatch (t.normalized ++ "-" ++ nt.normalized) then
          some ⟨"callsign", t.normalized ++ "-" ++ nt.normalized,
            min t.confidence nt.confidence, [t.raw, nt.raw]⟩
        else callsignScan rest
      | none => callsignScan rest

/-- Hyphen-insertion attempts of the NATO-run path of
`parsers.parse_callsign`: a hyphen after position 1, then after position 2;
the first candidate matching the callsign pattern wins. -/
def natoRunCandidate (letters : String) : Option String :=
  if letters.length > 1 ∧ callsignMatch (letters.take 1 ++ "-" ++ letters.drop 1) then
    some (letters.take 1 ++ "-" ++ letters.drop 1)
  else if letters.length > 2 ∧ callsignMatch (letters.take 2 ++ "-" ++ letters.drop 2) then
    some (letters.take 2 ++ "-" ++ letters.drop 2)
  else none

/-- Minimum of the confidences of a token run (`min(...)` over a run known
to be nonempty; `1` for the empty run, which is never hit). -/
def minConfidence (run : List Token) : ℚ :=
  match run.map Token.confidence with
  | [] => 1
  | c :: cs => cs.foldl min c

/-- Second loop of `parsers.parse_callsign`: find a maximal run of at least
3 consecutive NATO tokens and form a hyphenated callsign from its letters
(a sentinel token flushes a run ending at the end of the stream). -/
def natoRunScan (run : List Token) : List Token → Option ParsedSlot
  | [] => none
  | t :: rest =>
    if t.kind = "nato" then natoRunScan (run ++ [t]) rest
    else
      if run.length ≥ 3 then
        match natoRunCandidate (String.join (run.map Token.normalized)) with
        | some candidate =>
          some ⟨"callsign", candidate, minConfidence run, run.map Token.raw⟩
        | none => natoRunScan [] rest
      else natoRunScan [] rest

/-- Mirror of `parsers.parse_callsign`. -/
def parse_callsign (tokens : List Token) : Option ParsedSlot :=
  match callsignScan tokens with
  | some slot => some slot
  | none => natoRunScan [] (tokens ++ [⟨"", "", "word", 1⟩])

/-- Mirror of `parsers.parse_flight_level`. -/
def parse_flight_level (tokens : List Token) : Option ParsedSlot :=
  match tokens.find? (fun t => t.kind = "flight_level" &&
      strStartsWith t.normalized "FL") with
  | some t => some ⟨"flight_level", t.normalized, t.confidence, [t.raw]⟩
  | none => none

/-- Mirror of `parsers._consume_number_sequence`: the maximal prefix of
digit-valued number/digit tokens; returns the concatenated digits, the raw
tokens, and the minimum confidence (`0` for an empty run). -/
def consume_number_sequence (tokens : List Token) :
    String × List String × ℚ :=
  let run := tokens.takeWhile (fun t =>
    (t.kind = "number" || t.kind = "digits") && isDigits t.normalized)
  (String.join (run.map Token.normalized), run.map Token.raw,
   if run.isEmpty then 0 else minConfidence run)

/-- Python `str.zfill(2)` on a digit string. -/
def zfill2 (s : String) : String :=
  if s.length ≥ 2 then s else String.mk (List.replicate (2 - s.length) (Char.ofNat 48)) ++ s

/-- Mirror of `parsers.parse_runway`. -/
def parse_runway : List Token → Option ParsedSlot
  | [] => none
  | t :: rest =>
    if t.normalized = "runway" then
      match consume_number_sequence rest with
      | (digits, raws, conf) =>
        if digits = "" then parse_runway rest
        else
          match (rest.drop raws.length).head? with
          | some nt =>
            match List.lookup (lowerStr nt.normalized) RUNWAY_SUFFIX with
            | some suffix =>
              some ⟨"runway", zfill2 digits ++ suffix,
                min conf nt.confidence, t.raw :: (raws ++ [nt.raw])⟩
            | none => some ⟨"runway", zfill2 digits, conf, t.raw :: raws⟩
          | none => some ⟨"runway", zfill2 digits, conf, t.raw :: raws⟩
    else parse_runway rest

/-- Mirror of `parsers.parse_altitude`. -/
def parse_altitude : List Token → Option ParsedSlot
  | [] => none
  | t :: rest =>
    if t.normalized = "altitude" ∨ t.normalized = "alt" ∨ t.normalized = "height" then
      match consume_number_sequence rest with
      | (digits, raws, conf) =>
        if digits = "" then parse_altitude rest
        else some ⟨"altitude", digits, conf, t.raw :: raws⟩
    else parse_altitude rest

/-- Mirror of `parsers.parse_qnh`. -/
def parse_qnh : List Token → Option ParsedSlot
  | [] => none
  | t :: rest =>
    if t.normalized = "qnh" then
      match consume_number_sequence rest with
      | (digits, raws, conf) =>
        if digits = "" then parse_qnh rest
        else some ⟨"qnh", digits, conf, t.raw :: raws⟩
    else parse_qnh rest

/-- Mirror of `parsers.parse_squawk`. -/
def parse_squawk : List Token → Option ParsedSlot
  | [] => none
  | t :: rest =>
    if t.normalized = "squawk" then
      match consume_number_sequence rest with
      | (digits, raws, conf) =>
        if digits = "" then parse_squawk rest
        else some ⟨"squawk", digits, conf, t.raw :: raws⟩
    else parse_squawk rest

/-- Python `str.isalnum` restricted to the ASCII strings arising here. -/
def isAlnumStr (s : String) : Bool :=
  !s.data.isEmpty && s.data.all (fun c => c.isAlpha || c.isDigit)

/-- Mirror of `parsers._normalize_letter_token`. -/
def normalize_letter_token (t : Token) : Option String :=
  if t.kind = "nato" then some t.normalized
  else if isAlnumStr t.normalized ∧ t.normalized.length ≤ 3 then
    some (upperStr t.normalized)
  else none

/-- Mirror of `parsers.parse_sector`. -/
def parse_sector : List Token → Option ParsedSlot
  | [] => none
  | t :: rest =>
    if t.normalized = "sector" ∨ t.normalized = "sektor" then
      match rest.head? with
      | some nt =>
        match normalize_letter_token nt with
        | some letter =>
          some ⟨"sector", letter, nt.confidence, [t.raw, nt.raw]⟩
        | none => parse_sector rest
      | none => parse_sector rest
    else parse_sector rest

/-- Mirror of `parsers.parse_position`. -/
def parse_position : List Token → Option ParsedSlot
  | [] => none
  | t :: rest =>
    if t.normalized = "apron" then
      match rest.head? with
      | some nt =>
        if nt.kind = "word" then
          some ⟨"position", "apron " ++ nt.normalized,
            min t.confidence nt.confidence, [t.raw, nt.raw]⟩
        else some ⟨"position", "apron", t.confidence, [t.raw]⟩
      | none => some ⟨"position", "apron", t.confidence, [t.raw]⟩
    else parse_position rest

/-- Mirror of `parsers.parse_taxiway`. -/
def parse_taxiway : List Token → Option ParsedSlot
  | [] => none
  | t :: rest =>
    if t.normalized = "taxiway" then
      match rest.head? with
      | some nt =>
        match normalize_letter_token nt with
        | some letter =>
          some ⟨"taxiway", letter, nt.confidence, [t.raw, nt.raw]⟩
        | none => parse_taxiway rest
      | none => parse_taxiway rest
    else parse_taxiway rest

/-- The `holding`/`hold` + `point` + letter path of
`parsers.parse_holding_point`, checked at one cursor position. -/
def holdingTriple (t : Token) (rest : List Token) : Option ParsedSlot :=
  if t.normalized = "holding" ∨ t.normalized = "hold" then
    match rest with
    | p :: candidate :: _ =>
      if p.normalized = "point" then
        (normalize_letter_token candidate).map (fun v =>
          ⟨"holding_point", v, candidate.confidence, [t.raw, p.raw, candidate.raw]⟩)
      else none
    | _ => none
  else none

/-- The `stop` + letter path of `parsers.parse_holding_point`, checked at
one cursor position. -/
def stopPair (t : Token) (rest : List Token) : Option ParsedSlot :=
  if t.normalized = "stop" then
    match rest with
    | candidate :: _ =>
      (normalize_letter_token candidate).map (fun v =>
        ⟨"holding_point", v, candidate.confidence, [t.raw, candidate.raw]⟩)
    | [] => none
  else none

/-- Mirror of `parsers.parse_holding_point`: at each cursor position try
the `holding point X` form and then the `stop X` form. -/
def parse_holding_point : List Token → Option ParsedSlot
  | [] => none
  | t :: rest =>
    match holdingTriple t rest with
    | some slot => some slot
    | none =>
      match stopPair t rest with
      | some slot => some slot
      | none => parse_holding_point rest

/-- The optional speed part of `parsers.parse_wind`: a token ending in
`kt` (every occurrence of `kt` removed, as `str.replace` does), or a digit
token optionally followed by `kt`/`kts`. Returns the speed string and the
accumulated minimum confidence when a speed is present. -/
def windSpeed (after : List Token) (conf : ℚ) : Option (String × ℚ) :=
  match after with
  | candidate :: afterTail =>
    if strEndsWith candidate.normalized "kt" then
      let speed := strReplace candidate.normalized "kt" ""
      if speed = "" then none
      else some (speed, min conf candidate.confidence)
    else if isDigits candidate.normalized then
      let c1 := min conf candidate.confidence
      match afterTail with
      | kt :: _ =>
        if kt.normalized = "kt" ∨ kt.normalized = "kts" then
          some (candidate.normalized, min c1 kt.confidence)
        else some (candidate.normalized, c1)
      | [] => some (candidate.normalized, c1)
    else none
  | [] => none

/-- Mirror of `parsers.parse_wind`. -/
def parse_wind : List Token → Option ParsedSlot
  | [] => none
  | t :: rest =>
    if t.normalized = "wind" then
      match rest with
      | direction :: restTail =>
        if isDigits direction.normalized then
          match windSpeed restTail direction.confidence with
          | some p =>
            some ⟨"wind", direction.normalized ++ "/" ++ p.1, p.2,
              [t.raw, direction.raw]⟩
          | none =>
            some ⟨"wind", direction.normalized, direction.confidence,
              [t.raw, direction.raw]⟩
        else parse_wind rest
      | [] => parse_wind rest
    else parse_wind rest

/-- Mirror of `parsers.parse_time`. -/
def parse_time : List Token → Option ParsedSlot
  | [] => none
  | t :: rest =>
    if t.normalized = "time" then
      match rest.head? with
      | some nt =>
        if isDigits nt.normalized then
          some ⟨"time", nt.normalized, nt.confidence, [t.raw, nt.raw]⟩
        else parse_time rest
      | none => parse_time rest
    else parse_time rest

/-- Mirror of `parsers.parse_all`: run every parser on the token stream and
collect the results keyed by slot name, in parser order. -/
def parse_all (result : NormalizationResult) : List (String × ParsedSlot) :=
  [parse_callsign, parse_runway, parse_altitude, parse_flight_level,
   parse_qnh, parse_squawk, parse_sector, parse_position, parse_taxiway,
   parse_holding_point, parse_wind, parse_time].foldl
    (fun slots p =>
      match p result.tokens with
      | some parsed => slots ++ [(parsed.name, parsed)]
      | none => slots) []

/-- Mirror of `state_machine.State`. -/
structure State where
  name : String
  required_slots : List String
  optional_slots : List String
  next_states : List String
  atc_templates : List String
  readback_required : Bool
  readback_slots : List String
deriving DecidableEq, Repr

/-- Mirror of `state_machine.SCENARIOS`: the static scenario catalog, one
scenario mapping state names to state definitions. -/
def SCENARIOS : List (String × List (String × State)) :=
  [("graz_vfr_sector_e",
    [("initial_call",
      ⟨"initial_call", ["callsign"], [], ["taxi_request"],
       ["{callsign}, Graz Tower"], false, []⟩),
     ("taxi_request",
      ⟨"taxi_request", ["callsign", "position"], ["qnh", "taxiway"],
       ["taxi_clearance"],
       ["Taxi to holding point runway {runway}, via {taxiway}, QNH {qnh}"],
       false, []⟩),
     ("taxi_clearance",
      ⟨"taxi_clearance", ["callsign", "runway", "qnh"], ["taxiway"],
       ["intermediate_hold"],
       ["Hold at intermediate stop {holding_point}, give way to {traffic}"],
       true, ["runway", "qnh", "holding_point"]⟩),
     ("intermediate_hold",
      ⟨"intermediate_hold", ["callsign", "holding_point"], [],
       ["taxi_continue"],
       ["Continue taxi to holding point {holding_point}"], false, []⟩),
     ("taxi_continue",
      ⟨"taxi_continue", ["callsign", "holding_point"], ["taxiway"],
       ["departure_instructions"],
       ["Leave the control zone via VFR sector {sector}, {altitude} or below, right turn after departure, report ready for departure"],
       false, []⟩),
     ("departure_instructions",
      ⟨"departure_instructions", ["callsign", "sector", "altitude"],
       ["runway"], ["lineup_wait"],
       ["Line up runway {runway} and wait"], true,
       ["sector", "altitude", "runway"]⟩),
     ("lineup_wait",
      ⟨"lineup_wait", ["callsign", "runway"], [], ["takeoff_clearance"],
       ["Wind {wind}, runway {runway}, cleared for takeoff"], true,
       ["runway", "wind"]⟩),
     ("takeoff_clearance",
      ⟨"takeoff_clearance", ["callsign", "runway", "wind"], [],
       ["airborne_time"],
       ["Airborne time {time}, report leaving sector {sector}"], true,
       ["runway", "wind"]⟩),
     ("airborne_time",
      ⟨"airborne_time", ["callsign", "time", "sector"], ["altitude"],
       ["qnh_update"], ["New QNH {qnh}"], false, []⟩),
     ("qnh_update",
      ⟨"qnh_update", ["callsign", "qnh"], [], ["leave_sector"],
       ["Report leaving sector {sector}"], true, ["qnh"]⟩),
     ("leave_sector",
      ⟨"leave_sector", ["callsign", "sector", "altitude"], ["time"],
       ["frequency_change"],
       ["Approved to leave the frequency"], false, []⟩),
     ("frequency_change",
      ⟨"frequency_change", ["callsign"], [], ["end"],
       ["Frequency change approved"], false, []⟩),
     ("end",
      ⟨"end", [], [], [], ["End of scenario"], false, []⟩)])]

/-- Mirror of `state_machine.get_state`. -/
def get_state (state_name : String) (scenario : String) : Option State :=
  List.lookup state_name ((List.lookup scenario SCENARIOS).getD [])

/-- Mirror of `validator.SlotRule`. -/
structure SlotRule where
  name : String
  description : String
deriving DecidableEq, Repr

/-- Mirror of `validator._normalize_text` on string values:
`str(value).strip().lower()`. -/
def normalizeText (value : String) : String := lowerStr (stripStr value)

/-- Mirror of `validator._normalize_runway`. -/
def normalizeRunway (value : String) : String :=
  let raw := normalizeText value
  if raw = "" then ""
  else
    let digits := String.mk (raw.data.filter Char.isDigit)
    let suffix := String.mk (raw.data.filter Char.isAlpha)
    if digits = "" then raw else digits ++ suffix

/-- Mirror of `validator.STATE_EXPECTATIONS` (the legacy fallback table). -/
def STATE_EXPECTATIONS : List (String × List SlotRule) :=
  [("clearance",
    [⟨"callsign", "Aircraft callsign"⟩, ⟨"destination", "Destination airport"⟩,
     ⟨"runway", "Assigned runway"⟩, ⟨"qnh", "Altimeter setting (QNH)"⟩]),
   ("taxi",
    [⟨"callsign", "Aircraft callsign"⟩, ⟨"runway", "Assigned runway"⟩]),
   ("takeoff",
    [⟨"callsign", "Aircraft callsign"⟩, ⟨"runway", "Assigned runway"⟩]),
   ("initial_call", [⟨"callsign", "Aircraft callsign"⟩]),
   ("taxi_request",
    [⟨"callsign", "Aircraft callsign"⟩, ⟨"position", "Aircraft position"⟩]),
   ("taxi_clearance",
    [⟨"callsign", "Aircraft callsign"⟩, ⟨"runway", "Assigned runway"⟩,
     ⟨"qnh", "Altimeter setting (QNH)"⟩]),
   ("intermediate_hold",
    [⟨"callsign", "Aircraft callsign"⟩, ⟨"holding_point", "Holding point"⟩]),
   ("taxi_continue",
    [⟨"callsign", "Aircraft callsign"⟩, ⟨"holding_point", "Holding point"⟩]),
   ("departure_instructions",
    [⟨"callsign", "Aircraft callsign"⟩, ⟨"sector", "Departure sector"⟩,
     ⟨"altitude", "Altitude restriction"⟩]),
   ("lineup_wait",
    [⟨"callsign", "Aircraft callsign"⟩, ⟨"runway", "Assigned runway"⟩]),
   ("takeoff_clearance",
    [⟨"callsign", "Aircraft callsign"⟩, ⟨"runway", "Assigned runway"⟩,
     ⟨"wind", "Surface wind"⟩]),
   ("airborne_time",
    [⟨"callsign", "Aircraft callsign"⟩, ⟨"time", "Airborne time"⟩,
     ⟨"sector", "Departure sector"⟩]),
   ("qnh_update",
    [⟨"callsign", "Aircraft callsign"⟩, ⟨"qnh", "Altimeter setting (QNH)"⟩]),
   ("leave_sector",
    [⟨"callsign", "Aircraft callsign"⟩, ⟨"sector", "Departure sector"⟩,
     ⟨"altitude", "Altitude"⟩]),
   ("frequency_change", [⟨"callsign", "Aircraft callsign"⟩])]

/-- Mirror of `validator._expected_rules_for_state`. -/
def expected_rules_for_state (state : String) (scenario : String) :
    List SlotRule :=
  match get_state state scenario with
  | some state_def =>
    state_def.required_slots.map (fun n => ⟨n, "Required slot: " ++ n⟩)
  | none => (List.lookup state STATE_EXPECTATIONS).getD []

/-- Mirror of `validator._readback_expectations`. -/
def readback_expectations (state : String) (scenario : String) :
    List String :=
  match get_state state scenario with
  | some state_def =>
    if state_def.readback_required then state_def.readback_slots else []
  | none => []

/-- Mirror of `validator._runway_matches`. -/
def runway_matches (expected actual : String) : Bool :=
  let expected_norm := normalizeRunway expected
  let actual_norm := normalizeRunway actual
  if expected_norm = "" ∨ actual_norm = "" then false
  else
    let expected_digits := String.mk (expected_norm.data.filter Char.isDigit)
    let actual_digits := String.mk (actual_norm.data.filter Char.isDigit)
    if expected_digits = "" ∨ actual_digits = "" then
      expected_norm = actual_norm
    else expected_digits = actual_digits

/-- Mirror of `validator._qnh_valid`. -/
def qnh_valid (value : String) : Bool :=
  let text := normalizeText value
  if text = "" then false
  else if !isDigits text then false
  else decide (900 ≤ digitsToNat text) && decide (digitsToNat text ≤ 1100)

/-- Mirror of `validator._wind_valid`. -/
def wind_valid (value : String) : Bool :=
  let text := normalizeText value
  if text = "" then false
  else if text.data.contains (Char.ofNat 47) then
    let direction := String.mk (text.data.takeWhile (fun c => c ≠ Char.ofNat 47))
    let speed := String.mk ((text.data.dropWhile (fun c => c ≠ Char.ofNat 47)).tail)
    if !(isDigits direction && isDigits speed) then false
    else decide (direction.length = 2 ∨ direction.length = 3)
  else isDigits text

/-- Mirror of `validator._time_valid`. -/
def time_valid (value : String) : Bool :=
  let text := normalizeText value
  if text = "" || !isDigits text then false
  else decide (digitsToNat text ≤ 59)

/-- Mirror of `validator._sector_valid`. -/
def sector_valid (value : String) : Bool :=
  let text := normalizeText value
  !(text = "") && isAlnumStr text

/-- The lists accumulated by the two checking loops of
`validator.validate`. -/
structure CheckAcc where
  missing : List String
  wrong : List String
  reasons : List String
deriving DecidableEq, Repr

/-- The slot-specific validator chain of `validator.validate` (the
`elif` ladder on `rule.name`), applied to a present, non-blank value:
`some reason` when the slot must be flagged wrong, `none` otherwise. -/
def slotWrongCheck (slots : List (String × String)) (rule : SlotRule)
    (value : String) : Option String :=
  if rule.name = "runway" then
    let expected_runway := (List.lookup "expected_runway" slots).getD value
    if !runway_matches expected_runway value then
      some ("runway mismatch: expected " ++ expected_runway ++ ", got " ++ value)
    else none
  else if rule.name = "qnh" then
    if !qnh_valid value then some ("invalid qnh: " ++ value) else none
  else if rule.name = "wind" then
    if !wind_valid value then some ("invalid wind: " ++ value) else none
  else if rule.name = "time" then
    if !time_valid value then some ("invalid time: " ++ value) else none
  else if rule.name = "sector" then
    if !sector_valid value then some ("invalid sector: " ++ value) else none
  else none

/-- The required-slot loop of `validator.validate`: a missing or blank
value is flagged missing; otherwise the slot-specific validator may flag
the slot wrong. -/
def requiredCheck (slots : List (String × String)) :
    List SlotRule → CheckAcc
  | [] => ⟨[], [], []⟩
  | rule :: rules =>
    let rest := requiredCheck slots rules
    match List.lookup rule.name slots with
    | none =>
      ⟨rule.name :: rest.missing, rest.wrong,
       ("missing: " ++ rule.name) :: rest.reasons⟩
    | some value =>
      if normalizeText value = "" then
        ⟨rule.name :: rest.missing, rest.wrong,
         ("missing: " ++ rule.name) :: rest.reasons⟩
      else
        match slotWrongCheck slots rule value with
        | some reason =>
          ⟨rest.missing, rule.name :: rest.wrong, reason :: rest.reasons⟩
        | none => rest

/-- The readback loop of `validator.validate`: for each readback slot with
an `expected_<name>` entry, a blank actual is flagged missing and a
normalized mismatch is flagged wrong. -/
def readbackCheck (slots : List (String × String)) :
    List String → CheckAcc
  | [] => ⟨[], [], []⟩
  | slot_name :: names =>
    let rest := readbackCheck slots names
    match List.lookup ("expected_" ++ slot_name) slots with
    | none => rest
    | some expected_value =>
      match List.lookup slot_name slots with
      | none =>
        ⟨slot_name :: rest.missing, rest.wrong,
         ("readback missing: " ++ slot_name) :: rest.reasons⟩
      | some actual_value =>
        if normalizeText actual_value = "" then
          ⟨slot_name :: rest.missing, rest.wrong,
           ("readback missing: " ++ slot_name) :: rest.reasons⟩
        else if normalizeText expected_value ≠ normalizeText actual_value then
          ⟨rest.missing, slot_name :: rest.wrong,
           ("readback mismatch: expected " ++ expected_value ++ ", got " ++
            actual_value) :: rest.reasons⟩
        else rest

/-- Round a rational to two decimal places, the effect of Python
`round(score, 2)` on the scores arising here. -/
def round2 (q : ℚ) : ℚ := (roundHalfEven (100 * q) : ℚ) / 100

/-- Mirror of the validation record returned by `validator.validate`. -/
structure Validation where
  ok : Bool
  missing : List String
  wrong : List String
  score : ℚ
  reasons : List String
deriving DecidableEq, Repr

/-- Mirror of `validator.validate`. -/
def validate (state : String) (slots : List (String × String))
    (normalized_text : Option String) (scenario : String) : Validation :=
  let expected_rules := expected_rules_for_state state scenario
  let readback_slots := readback_expectations state scenario
  let req := requiredCheck slots expected_rules
  let rb := readbackCheck slots readback_slots
  let missing := req.missing ++ rb.missing
  let wrong := req.wrong ++ rb.wrong
  let reasons := req.reasons ++ rb.reasons ++
    (if expected_rules.isEmpty then ["no expectations configured for state"]
     else []) ++
    (match normalized_text with
     | some t => if t = "" then [] else ["checked text: " ++ t]
     | none => [])
  let total := expected_rules.length
  let score : ℚ :=
    if total = 0 then 1
    else ((max ((total : ℤ) - missing.length - wrong.length) 0 : ℤ) : ℚ) / total
  ⟨missing.isEmpty && wrong.isEmpty, missing, wrong, round2 score, reasons⟩

/-- Mirror of `state_machine.advance_state`. -/
def advance_state (current_state : String) (validation : Validation)
    (scenario : String) : String :=
  match get_state current_state scenario with
  | none => current_state
  | some state =>
    if validation.ok then
      match state.next_states with
      | next :: _ => next
      | [] => current_state
    else current_state

/-- Mirror of `atc_response.ATCResponse`. -/
structure ATCResponse where
  text : String
  reason : String
  renderer : String
deriving DecidableEq, Repr

/-- Mirror of `atc_response._MISSING_PROMPTS`. -/
def MISSING_PROMPTS : List (String × String) :=
  [("callsign", "say again callsign"), ("position", "report position"),
   ("runway", "confirm runway"), ("qnh", "confirm QNH"),
   ("holding_point", "report holding point"), ("sector", "report sector"),
   ("altitude", "report altitude"), ("wind", "report wind"),
   ("time", "report time")]

/-- A segment of a response template: literal character or `{name}` hole. -/
inductive Seg where
  | lit (c : Char)
  | hole (name : String)
deriving DecidableEq, Repr

/-- Parse a template into segments. The templates of this code base are
plain text with `\x7bname\x7d` holes; a template outside that fragment
(an unmatched brace or an empty field), which `str.format` would reject,
yields `none`. -/
def parseTemplateF : Nat → List Char → Option (List Seg)
  | 0, _ => none
  | _ + 1, [] => some []
  | fuel + 1, c :: cs =>
    if c = Char.ofNat 123 then
      let name := cs.takeWhile (fun d => d ≠ Char.ofNat 125)
      match cs.dropWhile (fun d => d ≠ Char.ofNat 125) with
      | _ :: rest2 =>
        if name.isEmpty then none
        else (parseTemplateF fuel rest2).map (Seg.hole (String.mk name) :: ·)
      | [] => none
    else if c = Char.ofNat 125 then none
    else (parseTemplateF fuel cs).map (Seg.lit c :: ·)

/-- Template parsing entry point; the fuel, one unit per remaining
character, is never exhausted because every step shortens the list. -/
def parseTemplate (chars : List Char) : Option (List Seg) :=
  parseTemplateF (chars.length + 1) chars

/-- Mirror of `atc_response._render_template`: `template.format(**slots)`
substitutes every hole when all referenced slots are present; a `KeyError`
(some hole has no slot entry) leaves the template fully unchanged. -/
def render_template (template : String) (slots : List (String × String)) :
    String :=
  match parseTemplate template.data with
  | none => template
  | some segs =>
    if segs.all (fun s =>
        match s with
        | .lit _ => true
        | .hole n => (List.lookup n slots).isSome) then
      String.join (segs.map (fun s =>
        match s with
        | .lit c => String.singleton c
        | .hole n => (List.lookup n slots).getD ""))
    else template

/-- Mirror of `atc_response.build_atc_response` with the optional external
renderer disabled (the `LLM_RENDERER` environment flag unset), which is the
deterministic default of the source. -/
def build_atc_response (state : String) (scenario : String)
    (slots : List (String × String)) (validation : Validation) :
    ATCResponse :=
  let state_def := get_state state scenario
  match validation.missing with
  | m :: _ =>
    ⟨(List.lookup m MISSING_PROMPTS).getD ("report " ++ m),
     "missing_slot", "deterministic"⟩
  | [] =>
    match validation.wrong with
    | w :: _ => ⟨"confirm " ++ w, "wrong_slot", "deterministic"⟩
    | [] =>
      match state_def with
      | some sd =>
        match sd.atc_templates with
        | template :: _ =>
          ⟨render_template template slots, "template", "deterministic"⟩
        | [] => ⟨"roger", "default", "deterministic"⟩
      | none => ⟨"roger", "default", "deterministic"⟩

/-- The slot-name-to-value view of the parsed slots built by
`stt_handler.handle_stt`. -/
def slot_values_of (parsed_slots : List (String × ParsedSlot)) :
    List (String × String) :=
  parsed_slots.map (fun p => (p.1, p.2.value))

/-- Model of `merged_slots = dict(current_slots or \x7b\x7d)` followed by
`merged_slots.update(slot_values)`. The merged mapping is only ever read
through key lookups downstream, and for every key a lookup returns the
updating value when present and the base value otherwise — which is what
prepending the update achieves for an association list. -/
def dictUpdate (base upd : List (String × String)) :
    List (String × String) :=
  upd ++ base

/-- Mirror of the response record assembled by `stt_handler.handle_stt`. -/
structure SttResponse where
  text : String
  state : String
  normalized : String
  tokens : List Token
  slots : List (String × ParsedSlot)
  validation : Validation
  next_state : String
  atc_response : ATCResponse
deriving DecidableEq, Repr

/-- Mirror of `stt_handler.handle_stt`. -/
def handle_stt (stt_text : String) (state : String)
    (current_slots : List (String × String)) (scenario : String) :
    SttResponse :=
  let normalization := normalize_icao stt_text
  let parsed_slots := parse_all normalization
  let merged_slots := dictUpdate current_slots (slot_values_of parsed_slots)
  let validation :=
    validate state merged_slots (some normalization.normalized_text) scenario
  let next_state := advance_state state validation scenario
  let atc := build_atc_response state scenario merged_slots validation
  ⟨stt_text, state, normalization.normalized_text, normalization.tokens,
   parsed_slots, validation, next_state, atc⟩

/-! Theorems about the embedded pipeline. -/

/-- Rounding to two decimals leaves `1` unchanged. -/
lemma round2_one : round2 1 = 1 := by
  have h100 : (100 : ℚ) * 1 = 100 := by norm_num
  have hfl : roundHalfEven 100 = 100 := by
    unfold roundHalfEven
    norm_num
  unfold round2
  rw [h100, hfl]
  norm_num

/-- C1. For every call of `validate`, the returned record has `ok` true
exactly when both the `missing` and the `wrong` list are empty, and its
`score` is `max(0, required - |missing| - |wrong|) / required` rounded to
two decimals when the number of required slot rules is positive and `1.0`
otherwise, where the two list lengths count every entry, including the
entries added by the readback checks. -/
theorem validate_ok_iff_empty_and_score_formula (state : String)
    (slots : List (String × String)) (normalized_text : Option String)
    (scenario : String) :
    ((validate state slots normalized_text scenario).ok = true ↔
      (validate state slots normalized_text scenario).missing = [] ∧
      (validate state slots normalized_text scenario).wrong = []) ∧
    (validate state slots normalized_text scenario).score =
      (if (expected_rules_for_state state scenario).length = 0 then 1
       else round2
         ((((max (((expected_rules_for_state state scenario).length : ℤ) -
              (validate state slots normalized_text scenario).missing.length -
              (validate state slots normalized_text scenario).wrong.length) 0 : ℤ)) : ℚ) /
           ((expected_rules_for_state state scenario).length : ℚ))) := by
  constructor
  · have hok : (validate state slots normalized_text scenario).ok =
        ((validate state slots normalized_text scenario).missing.isEmpty &&
         (validate state slots normalized_text scenario).wrong.isEmpty) := rfl
    rw [hok]
    simp [List.isEmpty_iff]
  · have hs : (validate state slots normalized_text scenario).score =
        round2 (if (expected_rules_for_state state scenario).length = 0 then 1
          else (((max (((expected_rules_for_state state scenario).length : ℤ) -
              (validate state slots normalized_text scenario).missing.length -
              (validate state slots normalized_text scenario).wrong.length) 0 : ℤ)) : ℚ) /
            ((expected_rules_for_state state scenario).length : ℚ)) := rfl
    rw [hs]
    by_cases h0 : (expected_rules_for_state state scenario).length = 0
    · simp [h0, round2_one]
    · simp [h0]

/-- A slot name is blank in a slot bag when it is absent or its value
normalizes to the empty string — the condition under which
`validator.validate` files a slot under `missing`. -/
def isBlankIn (slots : List (String × String)) (n : String) : Bool :=
  match List.lookup n slots with
  | none => true
  | some v => normalizeText v = ""

lemma requiredCheck_missing_blank (slots : List (String × String)) :
    ∀ (rules : List SlotRule) (n : String),
      n ∈ (requiredCheck slots rules).missing → isBlankIn slots n = true
  | [], n => by simp [requiredCheck]
  | rule :: rules, n => by
    intro hn
    unfold requiredCheck at hn
    rcases hlook : List.lookup rule.name slots with _ | value <;>
      simp only [hlook, List.mem_cons] at hn
    · rcases hn with h | h
      · subst h
        simp [isBlankIn, hlook]
      · exact requiredCheck_missing_blank slots rules n h
    · by_cases hblank : normalizeText value = ""
      · rw [if_pos hblank] at hn
        simp only [List.mem_cons] at hn
        rcases hn with h | h
        · subst h
          simp [isBlankIn, hlook, hblank]
        · exact requiredCheck_missing_blank slots rules n h
      · rw [if_neg hblank] at hn
        have htail : n ∈ (requiredCheck slots rules).missing := by
          rcases hcheck : slotWrongCheck slots rule value with _ | reason <;>
            simp only [hcheck] at hn <;> exact hn
        exact requiredCheck_missing_blank slots rules n htail

lemma requiredCheck_wrong_nonblank (slots : List (String × String)) :
    ∀ (rules : List SlotRule) (n : String),
      n ∈ (requiredCheck slots rules).wrong → isBlankIn slots n = false
  | [], n => by simp [requiredCheck]
  | rule :: rules, n => by
    intro hn
    unfold requiredCheck at hn
    rcases hlook : List.lookup rule.name slots with _ | value <;>
      simp only [hlook] at hn
    · exact requiredCheck_wrong_nonblank slots rules n hn
    · by_cases hblank : normalizeText value = ""
      · rw [if_pos hblank] at hn
        exact requiredCheck_wrong_nonblank slots rules n hn
      · rw [if_neg hblank] at hn
        rcases hcheck : slotWrongCheck slots rule value with _ | reason <;>
          simp only [hcheck, List.mem_cons] at hn
        · exact requiredCheck_wrong_nonblank slots rules n hn
        · rcases hn with h | h
          · subst h
            simp [isBlankIn, hlook, hblank]
          · exact requiredCheck_wrong_nonblank slots rules n h


lemma readbackCheck_missing_blank (slots : List (String × String)) :
    ∀ (names : List String) (n : String),
      n ∈ (readbackCheck slots names).missing → isBlankIn slots n = true
  | [], n => by simp [readbackCheck]
  | slot_name :: names, n => by
    intro hn
    unfold readbackCheck at hn
    rcases hexp : List.lookup ("expected_" ++ slot_name) slots with _ | expected_value <;>
      simp only [hexp] at hn
    · exact readbackCheck_missing_blank slots names n hn
    · rcases hlook : List.lookup slot_name slots with _ | actual_value <;>
        simp only [hlook, List.mem_cons] at hn
      · rcases hn with h | h
        · subst h
          simp [isBlankIn, hlook]
        · exact readbackCheck_missing_blank slots names n h
      · by_cases hblank : normalizeText actual_value = ""
        · rw [if_pos hblank] at hn
          simp only [List.mem_cons] at hn
          rcases hn with h | h
          · subst h
            simp [isBlankIn, hlook, hblank]
          · exact readbackCheck_missing_blank slots names n h
        · rw [if_neg hblank] at hn
          have htail : n ∈ (readbackCheck slots names).missing := by
            by_cases hne : normalizeText expected_value ≠ normalizeText actual_value
            · rw [if_pos hne] at hn
              exact hn
            · rw [if_neg hne] at hn
              exact hn
          exact readbackCheck_missing_blank slots names n htail

lemma readbackCheck_wrong_nonblank (slots : List (String × String)) :
    ∀ (names : List String) (n : String),
      n ∈ (readbackCheck slots names).wrong → isBlankIn slots n = false
  | [], n => by simp [readbackCheck]
  | slot_name :: names, n => by
    intro hn
    unfold readbackCheck at hn
    rcases hexp : List.lookup ("expected_" ++ slot_name) slots with _ | expected_value <;>
      simp only [hexp] at hn
    · exact readbackCheck_wrong_nonblank slots names n hn
    · rcases hlook : List.lookup slot_name slots with _ | actual_value <;>
        simp only [hlook] at hn
      · exact readbackCheck_wrong_nonblank slots names n hn
      · by_cases hblank : normalizeText actual_value = ""
        · rw [if_pos hblank] at hn
          exact readbackCheck_wrong_nonblank slots names n hn
        · rw [if_neg hblank] at hn
          by_cases hne : normalizeText expected_value ≠ normalizeText actual_value
          · rw [if_pos hne] at hn
            simp only [List.mem_cons] at hn
            rcases hn with h | h
            · subst h
              simp [isBlankIn, hlook, hblank]
            · exact readbackCheck_wrong_nonblank slots names n h
          · rw [if_neg hne] at hn
            exact readbackCheck_wrong_nonblank slots names n hn

/-- Any name in the `missing` list of a validation is blank in the bag. -/
lemma validate_missing_blank (state : String) (slots : List (String × String))
    (normalized_text : Option String) (scenario : String) (n : String)
    (hn : n ∈ (validate state slots normalized_text scenario).missing) :
    isBlankIn slots n = true := by
  have hm : (validate state slots normalized_text scenario).missing =
      (requiredCheck slots (expected_rules_for_state state scenario)).missing ++
      (readbackCheck slots (readback_expectations state scenario)).missing := rfl
  rw [hm] at hn
  rcases List.mem_append.mp hn with h | h
  · exact requiredCheck_missing_blank slots _ n h
  · exact readbackCheck_missing_blank slots _ n h

/-- Any name in the `wrong` list of a validation is non-blank in the bag. -/
lemma validate_wrong_nonblank (state : String) (slots : List (String × String))
    (normalized_text : Option String) (scenario : String) (n : String)
    (hn : n ∈ (validate state slots normalized_text scenario).wrong) :
    isBlankIn slots n = false := by
  have hw : (validate state slots normalized_text scenario).wrong =
      (requiredCheck slots (expected_rules_for_state state scenario)).wrong ++
      (readbackCheck slots (readback_expectations state scenario)).wrong := rfl
  rw [hw] at hn
  rcases List.mem_append.mp hn with h | h
  · exact requiredCheck_wrong_nonblank slots _ n h
  · exact readbackCheck_wrong_nonblank slots _ n h

/-- C7. For every call of `validate`, no slot name occurs both in the
`missing` list and in the `wrong` list of the returned validation: every
missing entry has a blank value in the bag while every wrong entry has a
non-blank one, so filtering the missing list by membership in the wrong
list leaves nothing. -/
theorem validate_missing_wrong_disjoint (state : String)
    (slots : List (String × String)) (normalized_text : Option String)
    (scenario : String) :
    (validate state slots normalized_text scenario).missing.filter
      (fun n => (validate state slots normalized_text scenario).wrong.contains n) = [] := by
  rw [List.filter_eq_nil_iff]
  intro n hn
  have hblank := validate_missing_blank state slots normalized_text scenario n hn
  intro hcontains
  have hmem : n ∈ (validate state slots normalized_text scenario).wrong := by
    simpa using hcontains
  have hnonblank := validate_wrong_nonblank state slots normalized_text scenario n hmem
  rw [hblank] at hnonblank
  exact absurd hnonblank (by simp)

/-- C6 (amended). For every state name that has no definition in the given
scenario and every slot mapping: if the state also has no entry in the
legacy expectations table, `validate` returns `ok = true` with empty
`missing` and `wrong` lists and a reason `no expectations configured for
state`; and — for every scenario-absent state, with or without a legacy
entry — `advance_state` returns the current state unchanged. -/
theorem validate_unknown_state_ok (state : String)
    (slots : List (String × String)) (normalized_text : Option String)
    (scenario : String)
    (hscen : get_state state scenario = none) :
    (List.lookup state STATE_EXPECTATIONS = none →
      (validate state slots normalized_text scenario).ok = true ∧
      (validate state slots normalized_text scenario).missing = [] ∧
      (validate state slots normalized_text scenario).wrong = [] ∧
      "no expectations configured for state" ∈
        (validate state slots normalized_text scenario).reasons) ∧
    advance_state state (validate state slots normalized_text scenario)
      scenario = state := by
  constructor
  · intro hleg
    have hrules : expected_rules_for_state state scenario = [] := by
      unfold expected_rules_for_state
      rw [hscen, hleg]
      rfl
    have hrb : readback_expectations state scenario = [] := by
      unfold readback_expectations
      rw [hscen]
    refine ⟨?_, ?_, ?_, ?_⟩ <;>
      simp [validate, hrules, hrb, requiredCheck, readbackCheck]
  · unfold advance_state
    rw [hscen]

/-- Witness for `validate_unknown_state_ok`: at the concrete state
`cruise`, which neither the scenario nor the legacy table defines, every
conclusion holds; and at the scenario-absent legacy state `clearance` the
advance conclusion holds as well. -/
theorem validate_unknown_state_ok_witness :
    (get_state "cruise" "graz_vfr_sector_e" = none ∧
      List.lookup "cruise" STATE_EXPECTATIONS = none) ∧
    ((validate "cruise" [("callsign", "OE-ABC")] (some "hello")
        "graz_vfr_sector_e").ok = true ∧
      (validate "cruise" [("callsign", "OE-ABC")] (some "hello")
        "graz_vfr_sector_e").missing = [] ∧
      (validate "cruise" [("callsign", "OE-ABC")] (some "hello")
        "graz_vfr_sector_e").wrong = [] ∧
      "no expectations configured for state" ∈
        (validate "cruise" [("callsign", "OE-ABC")] (some "hello")
          "graz_vfr_sector_e").reasons ∧
      advance_state "cruise"
        (validate "cruise" [("callsign", "OE-ABC")] (some "hello")
          "graz_vfr_sector_e") "graz_vfr_sector_e" = "cruise") ∧
    (get_state "clearance" "graz_vfr_sector_e" = none ∧
      advance_state "clearance"
        (validate "clearance" [] none "graz_vfr_sector_e")
        "graz_vfr_sector_e" = "clearance") :=
  ⟨⟨by decide, by decide⟩,
   (fun h => ⟨(h.1 (by decide)).1, (h.1 (by decide)).2.1,
      (h.1 (by decide)).2.2.1, (h.1 (by decide)).2.2.2, h.2⟩)
     (validate_unknown_state_ok "cruise" [("callsign", "OE-ABC")]
       (some "hello") "graz_vfr_sector_e" (by decide)),
   ⟨by decide,
    (validate_unknown_state_ok "clearance" [] none "graz_vfr_sector_e"
      (by decide)).2⟩⟩

/-- Counterexample to C6 as stated: the state `clearance` has no
definition in the scenario `graz_vfr_sector_e`, yet `validate` does not
return `ok = true` with empty lists — the legacy expectations table still
applies, and with an empty slot bag every legacy slot is missing. -/
theorem validate_unknown_state_counterexample :
    get_state "clearance" "graz_vfr_sector_e" = none ∧
    (validate "clearance" [] none "graz_vfr_sector_e").ok = false ∧
    (validate "clearance" [] none "graz_vfr_sector_e").missing =
      ["callsign", "destination", "runway", "qnh"] := by
  refine ⟨by decide, by decide, by decide⟩

/-- Concatenation of a list of strings (no separators). -/
def concatAll : List String → String
  | [] => ""
  | s :: rest => s ++ concatAll rest

/-- Every non-flight-level rewrite rule emits a token whose `raw` field is
the original token text. -/
lemma rewriteOne_raw (prev : Option String) (t : String)
    (next : Option String) : ((rewriteOne prev t next).1).raw = t := by
  unfold rewriteOne rewriteBase
  repeat' split
  all_goals rfl

/-- When the flight-level rule never fires (no emitted token has kind
`flight_level`), the rewrite loop consumes exactly one input token per
emitted token and copies it into `raw`, so the concatenated raw fields
reproduce the concatenated input tokens. -/
lemma rewriteLoop_raw_concat :
    ∀ (fuel : Nat) (ts : List String) (prev : Option String),
      ts.length ≤ fuel →
      (∀ tok ∈ (rewriteLoop fuel prev ts).1, tok.kind ≠ "flight_level") →
      concatAll ((rewriteLoop fuel prev ts).1.map Token.raw) = concatAll ts
  | 0, ts, prev => by
    intro hfuel _
    have : ts = [] := List.length_eq_zero.mp (Nat.le_zero.mp hfuel)
    subst this
    rfl
  | fuel + 1, [], prev => by
    intro _ _
    rfl
  | fuel + 1, t :: rest, prev => by
    intro hfuel h
    by_cases hcond : t = "flight" ∧ rest.head? = some "level" ∧
        flDigits rest.tail ≠ ""
    · exfalso
      have hhead : (⟨"flight level", "FL" ++ flDigits rest.tail,
          "flight_level", 1⟩ : Token) ∈ (rewriteLoop (fuel + 1) prev (t :: rest)).1 := by
        simp only [rewriteLoop, if_pos hcond]
        exact List.mem_cons_self _ _
      exact h _ hhead rfl
    · have hstep : (rewriteLoop (fuel + 1) prev (t :: rest)).1 =
          (rewriteOne prev t rest.head?).1 ::
            (rewriteLoop fuel (some t) rest).1 := by
        simp only [rewriteLoop, if_neg hcond]
      rw [hstep]
      have hr : rest.length ≤ fuel := by
        have : (t :: rest).length = rest.length + 1 := rfl
        omega
      have htail : ∀ tok ∈ (rewriteLoop fuel (some t) rest).1,
          tok.kind ≠ "flight_level" := by
        intro tok htok
        apply h
        rw [hstep]
        exact List.mem_cons_of_mem _ htok
      have ih := rewriteLoop_raw_concat fuel rest (some t) hr htail
      simp only [List.map_cons, concatAll, rewriteOne_raw, ih]

/-- C5 (amended). For every input string on which the flight-level rule
does not fire (no emitted token has kind `flight_level`), the concatenated
`raw` fields of the normalized tokens equal the concatenation of the
lowercase `[a-z0-9]+` maximal runs extracted from the input. When the
flight-level rule fires this fails: the merged token records the constant
`flight level` as its `raw` text, dropping the consumed number words. -/
theorem normalize_raw_concat (t : String)
    (h : ∀ tok ∈ (normalize_icao t).tokens, tok.kind ≠ "flight_level") :
    concatAll ((normalize_icao t).tokens.map Token.raw) =
      concatAll (tokenize t) := by
  have htok : (normalize_icao t).tokens =
      (rewriteLoop (tokenize t).length none (tokenize t)).1 := rfl
  rw [htok]
  rw [htok] at h
  exact rewriteLoop_raw_concat (tokenize t).length (tokenize t) none
    le_rfl h

/-- Witness for `normalize_raw_concat` at a concrete input without a
flight-level merge. -/
theorem normalize_raw_concat_witness :
    (∀ tok ∈ (normalize_icao "tree fife niner").tokens,
      tok.kind ≠ "flight_level") ∧
    concatAll ((normalize_icao "tree fife niner").tokens.map Token.raw) =
      concatAll (tokenize "tree fife niner") :=
  ⟨by decide, normalize_raw_concat "tree fife niner" (by decide)⟩

/-- Counterexample to C5 as stated: on `flight level one zero zero` the
flight-level rule fires, the lone emitted token records `flight level` as
its raw text, and the concatenated raw fields no longer reproduce the
concatenated `[a-z0-9]+` runs of the input. -/
theorem normalize_raw_concat_counterexample :
    concatAll ((normalize_icao "flight level one zero zero").tokens.map
      Token.raw) ≠
    concatAll (tokenize "flight level one zero zero") := by
  decide

/-- C9. For every response template that parses into segments and every
slot mapping, if some placeholder of the template has no entry in the
mapping, rendering returns the template completely unchanged — no
substitution happens at all, not even for placeholders whose slots are
present (the all-or-nothing behaviour of `str.format` under the caught
`KeyError`). -/
theorem render_template_missing_placeholder_unchanged (template : String)
    (slots : List (String × String)) (n : String)
    (hparse : (parseTemplate template.data).isSome = true)
    (hhole : Seg.hole n ∈ (parseTemplate template.data).getD [])
    (hmiss : List.lookup n slots = none) :
    render_template template slots = template := by
  unfold render_template
  rcases hp : parseTemplate template.data with _ | segs
  · rfl
  · rw [hp] at hhole
    simp only [Option.getD_some] at hhole
    have hall : (segs.all (fun s =>
        match s with
        | .lit _ => true
        | .hole m => (List.lookup m slots).isSome)) = false := by
      apply Bool.eq_false_iff.mpr
      intro htrue
      have hmem := List.all_eq_true.mp htrue _ hhole
      simp only [hmiss] at hmem
      exact absurd hmem (by simp)
    simp only [hall]
    simp

/-- Witness for `render_template_missing_placeholder_unchanged` on the
`qnh_update` template with a slot bag that lacks `sector`. -/
theorem render_template_missing_placeholder_witness :
    ((parseTemplate "Report leaving sector {sector}".data).isSome = true ∧
      Seg.hole "sector" ∈
        (parseTemplate "Report leaving sector {sector}".data).getD [] ∧
      List.lookup "sector" [("callsign", "D-ABC"), ("qnh", "1013")] = none) ∧
    render_template "Report leaving sector {sector}"
      [("callsign", "D-ABC"), ("qnh", "1013")] =
      "Report leaving sector {sector}" :=
  ⟨⟨by decide, by decide, by decide⟩,
   render_template_missing_placeholder_unchanged
     "Report leaving sector {sector}" [("callsign", "D-ABC"), ("qnh", "1013")]
     "sector" (by decide) (by decide) (by decide)⟩

/-- A lookup that succeeds in the updating list succeeds with the same
value after the update is layered over the base (the association-list
rendering of `dict.update`). -/
lemma lookup_dictUpdate (base upd : List (String × String)) (n v : String)
    (h : List.lookup n upd = some v) :
    List.lookup n (dictUpdate base upd) = some v := by
  unfold dictUpdate
  induction upd with
  | nil => exact absurd h (by simp)
  | cons kv rest ih =>
    by_cases hk : n = kv.1
    · subst hk
      simp only [List.lookup, beq_self_eq_true] at h ⊢
      simpa using h
    · have hne : (n == kv.1) = false := beq_eq_false_iff_ne.mpr hk
      simp only [List.cons_append, List.lookup, hne] at h ⊢
      exact ih h

/-- C10. For every request, a slot parsed from the utterance overwrites a
caller-supplied entry of the same name in the merged bag, and `handle_stt`
computes its validation and its response from exactly that merged bag. -/
theorem handle_stt_parsed_overrides (stt_text state : String)
    (current_slots : List (String × String)) (scenario : String)
    (n v : String)
    (h : List.lookup n (slot_values_of (parse_all (normalize_icao stt_text))) =
      some v) :
    List.lookup n (dictUpdate current_slots
      (slot_values_of (parse_all (normalize_icao stt_text)))) = some v ∧
    (handle_stt stt_text state current_slots scenario).validation =
      validate state
        (dictUpdate current_slots
          (slot_values_of (parse_all (normalize_icao stt_text))))
        (some (normalize_icao stt_text).normalized_text) scenario ∧
    (handle_stt stt_text state current_slots scenario).atc_response =
      build_atc_response state scenario
        (dictUpdate current_slots
          (slot_values_of (parse_all (normalize_icao stt_text))))
        ((handle_stt stt_text state current_slots scenario).validation) :=
  ⟨lookup_dictUpdate current_slots _ n v h, rfl, rfl⟩

/-- Witness for `handle_stt_parsed_overrides`: the parsed `qnh=950`
overrides a caller-supplied `qnh=1000`. -/
theorem handle_stt_parsed_overrides_witness :
    List.lookup "qnh" (slot_values_of (parse_all (normalize_icao "QNH 950"))) =
      some "950" ∧
    (List.lookup "qnh" (dictUpdate [("qnh", "1000")]
        (slot_values_of (parse_all (normalize_icao "QNH 950")))) = some "950" ∧
      (handle_stt "QNH 950" "clearance" [("qnh", "1000")]
          "graz_vfr_sector_e").validation =
        validate "clearance"
          (dictUpdate [("qnh", "1000")]
            (slot_values_of (parse_all (normalize_icao "QNH 950"))))
          (some (normalize_icao "QNH 950").normalized_text)
          "graz_vfr_sector_e" ∧
      (handle_stt "QNH 950" "clearance" [("qnh", "1000")]
          "graz_vfr_sector_e").atc_response =
        build_atc_response "clearance" "graz_vfr_sector_e"
          (dictUpdate [("qnh", "1000")]
            (slot_values_of (parse_all (normalize_icao "QNH 950"))))
          ((handle_stt "QNH 950" "clearance" [("qnh", "1000")]
            "graz_vfr_sector_e").validation)) :=
  ⟨by decide,
   handle_stt_parsed_overrides "QNH 950" "clearance" [("qnh", "1000")]
     "graz_vfr_sector_e" "qnh" "950" (by decide)⟩

/-- Counterexample to C2 as stated: for `Flight level one zero zero` in
state `airborne_time`, the missing list is not
`[callsign, time, sector]` — the emitted `FL100` token itself matches the
callsign pattern `^[A-Z]{1,2}-?[A-Z0-9]{2,5}$`, so `callsign` is filled
and only `time` and `sector` are missing. -/
theorem flight_level_request_counterexample :
    (handle_stt "Flight level one zero zero" "airborne_time" []
      "graz_vfr_sector_e").validation.missing ≠
      ["callsign", "time", "sector"] := by
  decide

/-- C2 (amended). For `Flight level one zero zero` in state
`airborne_time` (default scenario, no current slots): the normalized text
is `FL100`; the parsed slots include `flight_level = FL100` and also
`callsign = FL100` (the flight-level token matches the callsign pattern);
the missing list is exactly `[time, sector]`; and the next state stays
`airborne_time`. -/
theorem flight_level_request_pipeline :
    (handle_stt "Flight level one zero zero" "airborne_time" []
      "graz_vfr_sector_e").normalized = "FL100" ∧
    List.lookup "flight_level"
      (slot_values_of (handle_stt "Flight level one zero zero"
        "airborne_time" [] "graz_vfr_sector_e").slots) = some "FL100" ∧
    List.lookup "callsign"
      (slot_values_of (handle_stt "Flight level one zero zero"
        "airborne_time" [] "graz_vfr_sector_e").slots) = some "FL100" ∧
    (handle_stt "Flight level one zero zero" "airborne_time" []
      "graz_vfr_sector_e").validation.missing = ["time", "sector"] ∧
    (handle_stt "Flight level one zero zero" "airborne_time" []
      "graz_vfr_sector_e").next_state = "airborne_time" := by
  refine ⟨by decide, by decide, by decide, by decide, by decide⟩

/-- Counterexample to C3 as stated: for `QNH 950` in the legacy
`clearance` state, QNH `950` lies inside the valid range `[900, 1100]`,
so the wrong list is empty rather than `[qnh]` and the response is not
`confirm qnh`. -/
theorem qnh_950_counterexample :
    (handle_stt "QNH 950" "clearance"
      [("callsign", "DLH1"), ("destination", "EDDF"), ("runway", "27")]
      "graz_vfr_sector_e").validation.wrong ≠ ["qnh"] ∧
    (handle_stt "QNH 950" "clearance"
      [("callsign", "DLH1"), ("destination", "EDDF"), ("runway", "27")]
      "graz_vfr_sector_e").atc_response.text ≠ "confirm qnh" := by
  refine ⟨by decide, by decide⟩

/-- C3 (amended). For `QNH 950` in the legacy `clearance` state with
current slots `callsign=DLH1, destination=EDDF, runway=27`: `qnh = 950`
is parsed, passes the range check (it lies in `[900, 1100]`), the wrong
list is empty, validation is ok, and the deterministic response falls back
to `roger` (the legacy state has no template). -/
theorem qnh_950_pipeline :
    List.lookup "qnh"
      (slot_values_of (handle_stt "QNH 950" "clearance"
        [("callsign", "DLH1"), ("destination", "EDDF"), ("runway", "27")]
        "graz_vfr_sector_e").slots) = some "950" ∧
    (handle_stt "QNH 950" "clearance"
      [("callsign", "DLH1"), ("destination", "EDDF"), ("runway", "27")]
      "graz_vfr_sector_e").validation.wrong = [] ∧
    (handle_stt "QNH 950" "clearance"
      [("callsign", "DLH1"), ("destination", "EDDF"), ("runway", "27")]
      "graz_vfr_sector_e").validation.ok = true ∧
    (handle_stt "QNH 950" "clearance"
      [("callsign", "DLH1"), ("destination", "EDDF"), ("runway", "27")]
      "graz_vfr_sector_e").atc_response.text = "roger" := by
  refine ⟨by decide, by decide, by decide, by decide⟩

/-- Counterexample to C4 as stated: the token joiner concatenates adjacent
NATO letters without a hyphen, so the normalized text of
`Delta alpha bravo charlie runway two seven left` is not
`D-ABC runway 2 7 left`. -/
theorem taxi_request_counterexample :
    (handle_stt "Delta alpha bravo charlie runway two seven left" "taxi" []
      "graz_vfr_sector_e").normalized ≠ "D-ABC runway 2 7 left" := by
  decide

/-- C4 (amended). For `Delta alpha bravo charlie runway two seven left` in
the legacy `taxi` state: the normalized text is `DABC runway 2 7 left`
(NATO letters joined without a hyphen), the parsed slots include
`callsign = D-ABC` and `runway = 27L`, validation is ok, and the next
state stays `taxi` (the legacy state has no successors in the scenario). -/
theorem taxi_request_pipeline :
    (handle_stt "Delta alpha bravo charlie runway two seven left" "taxi" []
      "graz_vfr_sector_e").normalized = "DABC runway 2 7 left" ∧
    List.lookup "callsign"
      (slot_values_of (handle_stt
        "Delta alpha bravo charlie runway two seven left" "taxi" []
        "graz_vfr_sector_e").slots) = some "D-ABC" ∧
    List.lookup "runway"
      (slot_values_of (handle_stt
        "Delta alpha bravo charlie runway two seven left" "taxi" []
        "graz_vfr_sector_e").slots) = some "27L" ∧
    (handle_stt "Delta alpha bravo charlie runway two seven left" "taxi" []
      "graz_vfr_sector_e").validation.ok = true ∧
    (handle_stt "Delta alpha bravo charlie runway two seven left" "taxi" []
      "graz_vfr_sector_e").next_state = "taxi" := by
  refine ⟨by decide, by decide, by decide, by decide, by decide⟩

/-- Counterexample to C8 as stated: on
`climb to flight level one zero zero` the normalizer records no confidence
hint at all — a hint is only recorded when the contextual rewrite fires,
not when it is suppressed — so the hint count is not one. -/
theorem climb_to_fl_counterexample :
    (normalize_icao "climb to flight level one zero zero").confidence_hints.length ≠ 1 := by
  decide

/-- C8 (amended). For `climb to flight level one zero zero` in state
`leave_sector` with current slots `callsign=OE-ABC, sector=E,
altitude=3000`: the normalizer records no confidence hints (the
suppressed `to` rewrite leaves no trace), the parsed slots include
`flight_level = FL100`, validation is ok, and the next state is
`frequency_change`. -/
theorem climb_to_fl_pipeline :
    (normalize_icao "climb to flight level one zero zero").confidence_hints = [] ∧
    List.lookup "flight_level"
      (slot_values_of (handle_stt "climb to flight level one zero zero"
        "leave_sector"
        [("callsign", "OE-ABC"), ("sector", "E"), ("altitude", "3000")]
        "graz_vfr_sector_e").slots) = some "FL100" ∧
    (handle_stt "climb to flight level one zero zero" "leave_sector"
      [("callsign", "OE-ABC"), ("sector", "E"), ("altitude", "3000")]
      "graz_vfr_sector_e").validation.ok = true ∧
    (handle_stt "climb to flight level one zero zero" "leave_sector"
      [("callsign", "OE-ABC"), ("sector", "E"), ("altitude", "3000")]
      "graz_vfr_sector_e").next_state = "frequency_change" := by
  refine ⟨by decide, by decide, by decide, by decide⟩

end ATC
